import Mathlib

/-!
Verification development for the `financial_calculators` repository.

The five Python scripts are embedded shallowly: Python floats become `ℚ`
(the scripts perform plain field arithmetic with no float-specific
behaviour relied upon by any statement below), `while` loops become
well-founded recursions on the loop counter, and the per-year simulation
bodies are transcribed literally from the source.

Sections, in order of the source files:
* `essp_payout_calc.py` — bucket growth calculator (`run_calculation`,
  `create_payout_df`, and the validation in `main`);
* `ss_breakeven.py` — breakeven finder (`align_series`,
  `find_breakeven_month`);
* `contribution_accumulation.py` — retirement-accumulation forecast
  (`calculate_contribution_rate`, `apply_rule_of_55`,
  `validate_hire_date`, `forecast_contributions`, run handler);
* `lumpsum_vs_payments_and_invest.py` — lump-sum vs annuity year loop.
-/

namespace FinCalc

/-- Two-decimal rounding, modelling Python `round(x, 2)`: round to nearest
hundredth.  (Python uses banker's rounding on exact half-cent ties; no
statement below exercises a tie, so round-half-up is used.) -/
def round2 (x : ℚ) : ℚ := (round (100 * x) : ℤ) / 100

/-! ## `essp_payout_calc.py` -/

/-- The `contrib_type` radio selection in `essp_payout_calc.py`. -/
inductive ContribType
  | Amount
  | Percent
  deriving DecidableEq

/-- The global inputs of `essp_payout_calc.py` (`main`, lines 116–134),
as passed to `run_calculation`. -/
structure Globals where
  cola : ℚ
  pre_return : ℚ
  post_return : ℚ
  retirement_age : ℤ
  current_age : ℤ
  current_year : ℤ
  current_salary : ℚ
  contrib_type : ContribType

/-- One row of the bucket table (already validated / numeric). -/
structure Bucket where
  name : String
  starting_balance : ℚ
  starting_contribution : ℚ
  payout_year : ℤ

/-- The mutable per-bucket simulation variables of the inner loops of
`run_calculation` / `create_payout_df`: `balance`, `contrib` (Amount mode)
and `local_salary` (Percent mode).  The source initialises only the field
its mode uses; here both are always carried, each read only in its mode. -/
structure SimState where
  balance : ℚ
  contrib : ℚ
  local_salary : ℚ

/-- Initial per-bucket state (lines 39–46 of `run_calculation`, likewise
lines 80–87 of `create_payout_df`). -/
def initState (g : Globals) (b : Bucket) : SimState :=
  ⟨b.starting_balance, b.starting_contribution, g.current_salary⟩

/-- The body of the per-year `while` loop (lines 49–58 of
`run_calculation`, identical at lines 90–99 of `create_payout_df`):
if `age < retirement_age` the bucket is in active phase (contribution
added, then pre-retirement growth; the Amount-mode contribution then
grows by COLA, the Percent-mode salary base grows by COLA), else it is
in runoff phase (post-retirement growth only). -/
def stepYear (g : Globals) (b : Bucket) (age : ℤ) (s : SimState) : SimState :=
  if age < g.retirement_age then
    match g.contrib_type with
    | .Amount =>
        ⟨(s.balance + s.contrib) * (1 + g.pre_return),
         s.contrib * (1 + g.cola), s.local_salary⟩
    | .Percent =>
        ⟨(s.balance + s.local_salary * b.starting_contribution) * (1 + g.pre_return),
         s.contrib, s.local_salary * (1 + g.cola)⟩
  else
    ⟨s.balance * (1 + g.post_return), s.contrib, s.local_salary⟩

/-- The `while sim_year <= yr and sim_year < b["payout_year"]` loop of
`run_calculation` (lines 48–60), transcribed with its two counters. -/
def cellLoop (g : Globals) (b : Bucket) (yr sim_year age : ℤ) (s : SimState) :
    SimState :=
  if h : sim_year ≤ yr ∧ sim_year < b.payout_year then
    cellLoop g b yr (sim_year + 1) (age + 1) (stepYear g b age s)
  else
    s
  termination_by (yr + 1 - sim_year).toNat
  decreasing_by omega

/-- One cell of the year-by-year balances table (line 62 of
`run_calculation`): the bucket column at row `yr` holds the re-simulated
balance rounded to two decimals while `yr` is before the bucket's payout
year, and null (`none`) from the payout year on. -/
def traceCell (g : Globals) (b : Bucket) (yr : ℤ) : Option ℚ :=
  let s := cellLoop g b yr g.current_year g.current_age (initState g b)
  if yr < b.payout_year then some (round2 s.balance) else none

/-- `max(b["payout_year"] for b in buckets)` (line 29); the trace rows run
over `range(current_year, max_payout_year)`. -/
def maxPayoutYear : List Bucket → ℤ
  | [] => 0
  | b :: bs => bs.foldl (fun m x => max m x.payout_year) b.payout_year

/-- The `while sim_year < b["payout_year"]` loop of `create_payout_df`
(lines 89–101). -/
def payoutLoop (g : Globals) (b : Bucket) (sim_year age : ℤ) (s : SimState) :
    SimState :=
  if h : sim_year < b.payout_year then
    payoutLoop g b (sim_year + 1) (age + 1) (stepYear g b age s)
  else
    s
  termination_by (b.payout_year - sim_year).toNat
  decreasing_by omega

/-- The `Payout Amount` recorded for a bucket by `create_payout_df`
(line 106): the fully simulated balance, rounded to two decimals. -/
def payoutAmount (g : Globals) (b : Bucket) : ℚ :=
  round2 (payoutLoop g b g.current_year g.current_age (initState g b)).balance

/-- Reference iterator for the Step Simulator: `simSeg g b age s n`
performs `n` consecutive yearly steps starting at age `age`.  This is the
loop-free form of the per-year loops above, used to state re-simulation. -/
def simSeg (g : Globals) (b : Bucket) (age : ℤ) (s : SimState) : ℕ → SimState
  | 0 => s
  | n + 1 => simSeg g b (age + 1) (stepYear g b age s) n

/-- A single incremental pass over the trace years: `incPass g b n` is the
state after processing the first `n` trace years, stepping a year exactly
when it lies before the bucket's payout year.  (The source instead
re-simulates from scratch for every row; the equality of the two is part
of claim C3.) -/
def incPass (g : Globals) (b : Bucket) : ℕ → SimState
  | 0 => initState g b
  | n + 1 =>
      if g.current_year + (n : ℤ) < b.payout_year then
        stepYear g b (g.current_age + (n : ℤ)) (incPass g b n)
      else
        incPass g b n

/-- The contribution cash flow an active-phase step adds to the balance:
`contrib` in Amount mode, `local_salary * starting_contribution`
(line 54) in Percent mode. -/
def contribOf (g : Globals) (b : Bucket) (s : SimState) : ℚ :=
  match g.contrib_type with
  | .Amount => s.contrib
  | .Percent => s.local_salary * b.starting_contribution

/-! ### Validation of the bucket table (`main`, lines 171–184)

`pd.to_numeric(..., errors="coerce")` turns each unparseable cell into
NaN; a cell is therefore modelled as `Option`-valued (`none` = not
numeric).  The payout year is carried as `Option ℤ` (the column is a
year).  The button handler first rejects any row with a NaN, then any
row with a negative balance/contribution or non-positive payout year,
and only then calls `run_calculation`. -/

/-- A bucket-table row as edited by the user, after `to_numeric` coercion
(`none` models NaN, i.e. a non-numeric cell). -/
structure RawBucket where
  name : String
  starting_balance : Option ℚ
  starting_contribution : Option ℚ
  payout_year : Option ℤ
  deriving DecidableEq

/-- Line 175: the row lands in `invalid_df` (some cell is NaN). -/
def rowNonNumeric (r : RawBucket) : Bool :=
  r.starting_balance.isNone || r.starting_contribution.isNone ||
    r.payout_year.isNone

/-- Line 179: the row matches the query
`starting_balance < 0 or starting_contribution < 0 or payout_year <= 0`. -/
def rowBadValues (r : RawBucket) : Bool :=
  match r.starting_balance, r.starting_contribution, r.payout_year with
  | some bal, some c, some p => bal < 0 || c < 0 || p ≤ 0
  | _, _, _ => false

/-- A fully numeric row, as consumed by `run_calculation`. -/
def toBucket (r : RawBucket) : Bucket :=
  ⟨r.name, r.starting_balance.getD 0, r.starting_contribution.getD 0,
   r.payout_year.getD 0⟩

/-- Outcome of a button-handler run: `st.error` + `st.stop`, or results. -/
inductive RunOutcome (α : Type) where
  | error (msg : String)
  | ok (val : α)
  deriving DecidableEq

/-- The final-payouts table of `create_payout_df` (lines 103–107). -/
def payoutRows (g : Globals) (bs : List Bucket) : List (String × ℤ × ℚ) :=
  bs.map fun b => (b.name, b.payout_year, payoutAmount g b)

/-- The `Run Calculation` button handler (`main`, lines 171–196):
validation, then simulation.  The `ok` value is the final-payouts table
(the year-by-year trace is `traceCell` over the same buckets). -/
def essp_main (g : Globals) (rows : List RawBucket) :
    RunOutcome (List (String × ℤ × ℚ)) :=
  if rows.filter (fun r => rowNonNumeric r) ≠ [] then
    .error "Some rows have invalid numeric values"
  else if rows.filter (fun r => rowBadValues r) ≠ [] then
    .error "One or more rows have invalid values"
  else
    .ok (payoutRows g (rows.map toBucket))

/-! ## `ss_breakeven.py` — the Breakeven Finder

Months are modelled as integers (the source uses `datetime.date` values
ordered chronologically; only their ordering and equality matter to
`align_series` / `find_breakeven_month`), benefits as `ℚ`. -/

/-- A cumulative benefit series: `(month, cumulative value)` pairs. -/
abbrev Series := List (ℤ × ℚ)

/-- Insert into a sorted list of months. -/
def insertSorted (x : ℤ) : List ℤ → List ℤ
  | [] => [x]
  | y :: ys => if x ≤ y then x :: y :: ys else y :: insertSorted x ys

/-- `sorted(set([d for d,_ in sa]) | set([d for d,_ in sb]))`
(line 115): the merged, deduplicated, ascending month grid. -/
def mergedMonths (sa sb : Series) : List ℤ :=
  ((sa.map Prod.fst ++ sb.map Prod.fst).dedup).foldr insertSorted []

/-- Python dict lookup `{d: v for d, v in s}` (line 116): the value of the
last pair carrying month `d`, if any. -/
def dictGet (s : Series) (d : ℤ) : Option ℚ :=
  ((s.filter fun p => p.1 = d).getLast?).map Prod.snd

/-- The forward-fill loop of `align_series` (lines 117–122): walk the
month grid carrying the last seen value of each series, starting both
carries at `0.0`. -/
def alignLoop (la lb : Series) : List ℤ → ℚ → ℚ → Series × Series
  | [], _, _ => ([], [])
  | d :: ds, pa, pb =>
      let pa1 := (dictGet la d).getD pa
      let pb1 := (dictGet lb d).getD pb
      let rest := alignLoop la lb ds pa1 pb1
      ((d, pa1) :: rest.1, (d, pb1) :: rest.2)

/-- `align_series` (lines 114–123). -/
def align_series (sa sb : Series) : Series × Series :=
  alignLoop sa sb (mergedMonths sa sb) 0 0

/-- The aligned difference series `a[i] - b[i]` scanned by
`find_breakeven_month` (both aligned series carry the same month grid). -/
def alignedDiff (sa sb : Series) : Series :=
  let ab := align_series sa sb
  ab.1.zipWith (fun p q => (p.1, p.2 - q.2)) ab.2

/-- The scan of `find_breakeven_month` (lines 129–136) over the aligned
difference list: for each adjacent pair, if the earlier difference is
exactly zero report the earlier month, else if the product is negative
(sign change) report the later month; otherwise move on.  Note the last
element's own difference is never examined as a zero. -/
def scanPairs : Series → Option ℤ
  | (d0, y0) :: (d1, y1) :: rest =>
      if y0 = 0 then some d0
      else if y0 * y1 < 0 then some d1
      else scanPairs ((d1, y1) :: rest)
  | _ => none

/-- `find_breakeven_month` (lines 125–136). -/
def find_breakeven_month (sa sb : Series) : Option ℤ :=
  if sa = [] ∨ sb = [] then none
  else scanPairs (alignedDiff sa sb)

/-! ## `contribution_accumulation.py` -/

/-- A calendar date at day granularity, as used by `relativedelta`. -/
structure DateT where
  year : ℤ
  month : ℤ
  day : ℤ

/-- `relativedelta(a, b).years`: whole elapsed years from `b` to `a`
(one fewer than the year difference when the month/day of `a`
lexicographically precedes that of `b`). -/
def yearsBetween (b a : DateT) : ℤ :=
  (a.year - b.year) -
    (if a.month < b.month ∨ (a.month = b.month ∧ a.day < b.day) then 1 else 0)

/-- `calculate_contribution_rate` (lines 9–21). -/
def calculate_contribution_rate (years_of_service : ℤ) : ℚ :=
  if years_of_service < 10 then 5 / 100
  else if years_of_service < 15 then 6 / 100
  else if years_of_service < 20 then 7 / 100
  else if years_of_service < 25 then 8 / 100
  else if years_of_service < 30 then 9 / 100
  else 10 / 100

/-- `apply_rule_of_55` (lines 24–27): extra 4% while the age+service test
passes and the simulated year lies in the fixed window 2026–2030. -/
def apply_rule_of_55 (age_on_2025 yos_on_2025 current_year : ℤ) : ℚ :=
  if age_on_2025 + yos_on_2025 ≥ 55 ∧ 2026 ≤ current_year ∧
      current_year ≤ 2030 then
    4 / 100
  else 0

/-- `validate_hire_date` (lines 30–34): `(valid?, error message)`. -/
def validate_hire_date (dob hire_date : DateT) : Bool × String :=
  let age_at_hire := yearsBetween dob hire_date
  if age_at_hire < 16 then
    (false, "Hire date below minimum working age 16")
  else
    (true, "")

/-- One row of the forecast table (lines 99–109; the two rate columns are
kept as fractions, where the source scales them by 100 for display). -/
structure FRow where
  year : ℤ
  age : ℤ
  yos : ℤ
  salary : ℚ
  regular_rate : ℚ
  service_rate : ℚ
  annual_regular : ℚ
  annual_service : ℚ
  total : ℚ

/-- The `for year in range(...)` loop of `forecast_contributions`
(lines 77–117), transcribed on its loop state
(`year`, `yos_now`, `salary`, `total_contributions`); `n` is the number
of remaining iterations.  Note the loop passes the *evolving* `yos_now`
to `apply_rule_of_55` (line 82) and increments it every year (line 115). -/
def forecastRows (ror pg : ℚ) (age_on_2025 reference_age cy : ℤ) :
    ℕ → ℤ → ℤ → ℚ → ℚ → List FRow
  | 0, _, _, _, _ => []
  | n + 1, year, yos_now, salary, total =>
      let age := reference_age + (year - cy)
      let rr := calculate_contribution_rate yos_now
      let sr := apply_rule_of_55 age_on_2025 yos_now year
      let arc : ℚ := if 2026 ≤ year then salary * rr else 0
      let asc : ℚ := if 2026 ≤ year then salary * sr else 0
      let total1 := (total + (arc + asc)) * (1 + ror)
      ⟨year, age, yos_now, salary,
        (if 2026 ≤ year then rr else 0), (if 2026 ≤ year then sr else 0),
        arc, asc, total1⟩ ::
        forecastRows ror pg age_on_2025 reference_age cy n (year + 1)
          (yos_now + 1) (salary * (1 + pg)) total1

/-- `forecast_contributions` (lines 36–117): validation, then the forecast
loop from the dynamic current year to the target year (`today` supplies
`datetime.now()`). -/
def forecast_contributions (dob : DateT) (years_of_service : ℤ)
    (eligible_pay ror pg : ℚ) (target_age : ℤ) (hire_date : Option DateT)
    (today : DateT) : RunOutcome (List FRow) :=
  let hireCheck := match hire_date with
    | some h => validate_hire_date dob h
    | none => (true, "")
  if hireCheck.1 = false then .error hireCheck.2
  else
    let cy := today.year
    let reference_age := yearsBetween dob ⟨cy, 1, 1⟩
    let years_until_target := target_age - reference_age
    if years_until_target ≤ 0 then
      .error "Target age is less than or equal to your current age"
    else
      let age_on_2025 := yearsBetween dob ⟨2025, 12, 31⟩
      let yos_now := match hire_date with
        | some h => yearsBetween h today
        | none => years_of_service
      .ok (forecastRows ror pg age_on_2025 reference_age cy
        (years_until_target + 1).toNat cy yos_now eligible_pay 0)

/-- The `Run Forecast` button handler (lines 200–219): rejects when both
a hire date and an explicit years-of-service are supplied, computes
years-of-service from the hire date otherwise, and runs the forecast. -/
def run_forecast_handler (hire_date_input : Option DateT)
    (yos_input : Option ℤ) (dob : DateT) (eligible_pay ror pg : ℚ)
    (target_age : ℤ) (today : DateT) : RunOutcome (List FRow) :=
  if hire_date_input.isSome ∧ yos_input.isSome then
    .error "Please provide either a Hire Date or Years of Service, not both."
  else
    match hire_date_input, yos_input with
    | some h, _ =>
        if (validate_hire_date dob h).1 = false then
          .error (validate_hire_date dob h).2
        else
          forecast_contributions dob (yearsBetween h ⟨2026, 1, 1⟩)
            eligible_pay ror pg target_age (some h) today
    | none, some y =>
        forecast_contributions dob y eligible_pay ror pg target_age none today
    | none, none =>
        .error "Please provide either a Hire Date or Years of Service."

/-! ## `lumpsum_vs_payments_and_invest.py` — the year loop (lines 18–38) -/

/-- End-of-year balance of the lump-sum-vs-annuity loop: year 1 applies
growth directly to the starting balance (already net of the first
payment); every later year subtracts the annual payment first, then adds
the after-tax gain. -/
def lumpEnd (start annual r t : ℚ) : ℕ → ℚ
  | 0 => start
  | n + 1 =>
      let prev := lumpEnd start annual r t n
      let bal := if n + 1 > 1 then prev - annual else prev
      let gross := bal * r
      let tax := gross * t
      let net := gross - tax
      bal + net

/-- The balance year `y` grows from (after the year-2+ payment
subtraction, before gains): line 22–23 of the source. -/
def lumpPre (start annual r t : ℚ) (y : ℕ) : ℚ :=
  if y > 1 then lumpEnd start annual r t (y - 1) - annual
  else lumpEnd start annual r t (y - 1)

/-- The net gain credited in year `y` (lines 24–26). -/
def lumpNet (start annual r t : ℚ) (y : ℕ) : ℚ :=
  lumpPre start annual r t y * r - (lumpPre start annual r t y * r) * t

/-- The reported audit row for year `y` (lines 30–38): every monetary
column is rounded to two decimals independently. -/
structure LRow where
  year : ℕ
  start_bal : ℚ
  gross : ℚ
  tax : ℚ
  net : ℚ
  end_bal : ℚ

/-- The row appended for year `y` (the source stores
`round(balance - net_gain, 2)` as the start balance, where `balance` is
already the end balance, so `start_bal` rounds `lumpPre`). -/
def lumpRow (start annual r t : ℚ) (y : ℕ) : LRow :=
  let bal := lumpPre start annual r t y
  let gross := bal * r
  let tax := gross * t
  let net := gross - tax
  ⟨y, round2 (bal + net - net), round2 gross, round2 tax, round2 net,
   round2 (bal + net)⟩

/-! ## Concrete inputs used by the spec scenarios -/

/-- Globals of spec scenario 1: COLA 3%, return 7%, runoff return 5%,
two active periods then runoff (retirement age two years past the
current age), Amount mode. -/
def scen1G : Globals := ⟨3/100, 7/100, 5/100, 2, 0, 0, 0, .Amount⟩

/-- Bucket of spec scenario 1: starting balance 30000, contribution 5000,
payout far beyond the three simulated periods. -/
def scen1B : Bucket := ⟨"Bucket 1", 30000, 5000, 100⟩

/-- Globals of spec scenario 2: salary 100000, COLA 3%, return 7%,
Percent mode, retirement far off. -/
def scen2G : Globals := ⟨3/100, 7/100, 5/100, 10, 0, 0, 100000, .Percent⟩

/-- Bucket of spec scenario 2: zero starting balance, contribution rate
5%. -/
def scen2B : Bucket := ⟨"Bucket 1", 0, 5/100, 100⟩

/-- Series A of spec scenario 3: values 0,100,200,300 at periods 0–3. -/
def scen3A : Series := [(0, 0), (1, 100), (2, 200), (3, 300)]

/-- Series B of spec scenario 3: values 50,120,180,320 at periods 0–3. -/
def scen3B : Series := [(0, 50), (1, 120), (2, 180), (3, 320)]

/-- The rows produced by a successful forecast run (`[]` on a validation
error); used to inspect `forecast_contributions` output. -/
def okRows : RunOutcome (List FRow) → List FRow
  | .ok rows => rows
  | .error _ => []

/-- A bucket-table row with a negative starting balance, used as a
concrete invalid input. -/
def badRow : RawBucket := ⟨"Bucket 1", some (-1), some 0, some 2030⟩

/-! ## Lemmas about the loop embeddings -/

/-- Peeling the last step off `simSeg`. -/
theorem simSeg_last (g : Globals) (b : Bucket) :
    ∀ (n : ℕ) (a : ℤ) (s : SimState),
      simSeg g b a s (n + 1) = stepYear g b (a + n) (simSeg g b a s n) := by
  intro n
  induction n with
  | zero => intro a s; simp [simSeg]
  | succ n ih =>
      intro a s
      show simSeg g b (a + 1) (stepYear g b a s) (n + 1) =
        stepYear g b (a + (n + 1 : ℕ)) (simSeg g b (a + 1) (stepYear g b a s) n)
      rw [ih]
      congr 1
      push_cast
      ring

/-- Unfolding `cellLoop` when the `while` guard holds. -/
theorem cellLoop_step (g : Globals) (b : Bucket) (yr sim_year age : ℤ)
    (s : SimState) (h : sim_year ≤ yr ∧ sim_year < b.payout_year) :
    cellLoop g b yr sim_year age s =
      cellLoop g b yr (sim_year + 1) (age + 1) (stepYear g b age s) := by
  rw [cellLoop]
  rw [dif_pos h]

/-- Unfolding `cellLoop` when the `while` guard fails. -/
theorem cellLoop_stop (g : Globals) (b : Bucket) (yr sim_year age : ℤ)
    (s : SimState) (h : ¬(sim_year ≤ yr ∧ sim_year < b.payout_year)) :
    cellLoop g b yr sim_year age s = s := by
  rw [cellLoop]
  rw [dif_neg h]

/-- The `run_calculation` cell loop performs exactly
`min (yr + 1) payout_year - sim_year` consecutive steps. -/
theorem cellLoop_eq_simSeg (g : Globals) (b : Bucket) (yr : ℤ) :
    ∀ (n : ℕ) (sim_year age : ℤ) (s : SimState),
      (min (yr + 1) b.payout_year - sim_year).toNat = n →
      cellLoop g b yr sim_year age s = simSeg g b age s n := by
  intro n
  induction n with
  | zero =>
      intro sy a s h
      have hng : ¬(sy ≤ yr ∧ sy < b.payout_year) := by omega
      rw [cellLoop_stop g b yr sy a s hng]
      rfl
  | succ n ih =>
      intro sy a s h
      have hg : sy ≤ yr ∧ sy < b.payout_year := by omega
      rw [cellLoop_step g b yr sy a s hg]
      exact ih (sy + 1) (a + 1) (stepYear g b a s) (by omega)

/-- Unfolding `payoutLoop` when the `while` guard holds. -/
theorem payoutLoop_step (g : Globals) (b : Bucket) (sim_year age : ℤ)
    (s : SimState) (h : sim_year < b.payout_year) :
    payoutLoop g b sim_year age s =
      payoutLoop g b (sim_year + 1) (age + 1) (stepYear g b age s) := by
  rw [payoutLoop]
  rw [dif_pos h]

/-- Unfolding `payoutLoop` when the `while` guard fails. -/
theorem payoutLoop_stop (g : Globals) (b : Bucket) (sim_year age : ℤ)
    (s : SimState) (h : ¬ sim_year < b.payout_year) :
    payoutLoop g b sim_year age s = s := by
  rw [payoutLoop]
  rw [dif_neg h]

/-- The `create_payout_df` loop performs exactly
`payout_year - sim_year` consecutive steps. -/
theorem payoutLoop_eq_simSeg (g : Globals) (b : Bucket) :
    ∀ (n : ℕ) (sim_year age : ℤ) (s : SimState),
      (b.payout_year - sim_year).toNat = n →
      payoutLoop g b sim_year age s = simSeg g b age s n := by
  intro n
  induction n with
  | zero =>
      intro sy a s h
      rw [payoutLoop_stop g b sy a s (by omega)]
      rfl
  | succ n ih =>
      intro sy a s h
      rw [payoutLoop_step g b sy a s (by omega)]
      exact ih (sy + 1) (a + 1) (stepYear g b a s) (by omega)

/-- The incremental pass agrees with the plain step iterator: once the
payout year is reached it idles, so after `n` trace years it has taken
`min n (payout_year - current_year)` steps. -/
theorem incPass_eq_simSeg (g : Globals) (b : Bucket) :
    ∀ n : ℕ, incPass g b n =
      simSeg g b g.current_age (initState g b)
        (min n (b.payout_year - g.current_year).toNat) := by
  intro n
  induction n with
  | zero => simp [incPass, simSeg]
  | succ n ih =>
      by_cases h : g.current_year + (n : ℤ) < b.payout_year
      · have hn : n < (b.payout_year - g.current_year).toNat := by omega
        have e1 : min n (b.payout_year - g.current_year).toNat = n := by omega
        have e2 : min (n + 1) (b.payout_year - g.current_year).toNat = n + 1 := by
          omega
        simp only [incPass, if_pos h, ih, e1, e2]
        exact (simSeg_last g b n g.current_age (initState g b)).symm
      · have e3 : min (n + 1) (b.payout_year - g.current_year).toNat =
            min n (b.payout_year - g.current_year).toNat := by omega
        simp only [incPass, if_neg h, ih, e3]

/-- The starting accumulator is a lower bound of the payout-year fold. -/
theorem le_foldl_max :
    ∀ (l : List Bucket) (acc : ℤ),
      acc ≤ l.foldl (fun m x => max m x.payout_year) acc := by
  intro l
  induction l with
  | nil => intro acc; simp
  | cons p t ih =>
      intro acc
      exact le_trans (le_max_left _ _) (ih (max acc p.payout_year))

/-- Every member's payout year is below the payout-year fold. -/
theorem mem_le_foldl_max :
    ∀ (l : List Bucket) (acc : ℤ) (b : Bucket), b ∈ l →
      b.payout_year ≤ l.foldl (fun m x => max m x.payout_year) acc := by
  intro l
  induction l with
  | nil => intro acc b h; cases h
  | cons p t ih =>
      intro acc b h
      rcases List.mem_cons.mp h with h1 | h2
      · subst h1
        exact le_trans (le_max_right _ _) (le_foldl_max t (max acc b.payout_year))
      · exact ih (max acc p.payout_year) b h2

/-- Every bucket's payout year is at most `maxPayoutYear` of its table. -/
theorem payout_le_maxPayoutYear (bs : List Bucket) (b : Bucket) (hb : b ∈ bs) :
    b.payout_year ≤ maxPayoutYear bs := by
  cases bs with
  | nil => cases hb
  | cons p t =>
      rcases List.mem_cons.mp hb with h1 | h2
      · subst h1
        exact le_foldl_max t b.payout_year
      · exact mem_le_foldl_max t p.payout_year b h2

/-- In Amount mode, as long as every step is in active phase, the
contribution grows by one COLA factor per step. -/
theorem simSeg_contrib_amount (g : Globals) (b : Bucket)
    (hA : g.contrib_type = .Amount) :
    ∀ (n : ℕ) (a : ℤ) (s : SimState), a + n ≤ g.retirement_age →
      (simSeg g b a s n).contrib = s.contrib * (1 + g.cola) ^ n := by
  intro n
  induction n with
  | zero => intro a s _; simp [simSeg]
  | succ n ih =>
      intro a s h
      have ha : a < g.retirement_age := by
        have : a + ((n : ℤ) + 1) ≤ g.retirement_age := by push_cast at h; omega
        omega
      show (simSeg g b (a + 1) (stepYear g b a s) n).contrib = _
      rw [ih (a + 1) (stepYear g b a s) (by push_cast at h ⊢; omega)]
      simp only [stepYear, if_pos ha, hA]
      ring

/-- In Percent mode, as long as every step is in active phase, the salary
base grows by one COLA factor per step. -/
theorem simSeg_salary_percent (g : Globals) (b : Bucket)
    (hP : g.contrib_type = .Percent) :
    ∀ (n : ℕ) (a : ℤ) (s : SimState), a + n ≤ g.retirement_age →
      (simSeg g b a s n).local_salary = s.local_salary * (1 + g.cola) ^ n := by
  intro n
  induction n with
  | zero => intro a s _; simp [simSeg]
  | succ n ih =>
      intro a s h
      have ha : a < g.retirement_age := by
        have : a + ((n : ℤ) + 1) ≤ g.retirement_age := by push_cast at h; omega
        omega
      show (simSeg g b (a + 1) (stepYear g b a s) n).local_salary = _
      rw [ih (a + 1) (stepYear g b a s) (by push_cast at h ⊢; omega)]
      simp only [stepYear, if_pos ha, hP]
      ring

/-- In Percent mode the salary trajectory depends only on the COLA rate,
the retirement age and the starting salary — not on the bucket (its rate
or balance) nor on the return rates. -/
theorem simSeg_salary_indep (g g2 : Globals) (b b2 : Bucket)
    (hP : g.contrib_type = .Percent) (hP2 : g2.contrib_type = .Percent)
    (hc : g2.cola = g.cola) (hr : g2.retirement_age = g.retirement_age) :
    ∀ (n : ℕ) (a : ℤ) (s t : SimState), t.local_salary = s.local_salary →
      (simSeg g2 b2 a t n).local_salary = (simSeg g b a s n).local_salary := by
  intro n
  induction n with
  | zero => intro a s t h; simpa [simSeg] using h
  | succ n ih =>
      intro a s t h
      show (simSeg g2 b2 (a + 1) (stepYear g2 b2 a t) n).local_salary =
        (simSeg g b (a + 1) (stepYear g b a s) n).local_salary
      apply ih
      by_cases ha : a < g.retirement_age
      · simp only [stepYear, if_pos ha, if_pos (hr ▸ ha), hP, hP2, hc, h]
      · simp only [stepYear, if_neg ha, if_neg (hr ▸ ha), h]

/-- The breakeven scan on a two-or-longer list whose head difference is
zero reports the head month. -/
theorem scanPairs_zero_head (d0 d1 : ℤ) (y1 : ℚ) (rest : Series) :
    scanPairs ((d0, 0) :: (d1, y1) :: rest) = some d0 := by
  simp [scanPairs]

/-- The breakeven scan on a sign change at the first pair reports the
later month. -/
theorem scanPairs_sign_head (d0 d1 : ℤ) (y0 y1 : ℚ) (rest : Series)
    (h0 : y0 ≠ 0) (h : y0 * y1 < 0) :
    scanPairs ((d0, y0) :: (d1, y1) :: rest) = some d1 := by
  simp [scanPairs, h0, h]

/-- The breakeven scan skips a pair with nonzero head difference and no
sign change. -/
theorem scanPairs_skip (d0 d1 : ℤ) (y0 y1 : ℚ) (rest : Series)
    (h0 : y0 ≠ 0) (h : ¬ y0 * y1 < 0) :
    scanPairs ((d0, y0) :: (d1, y1) :: rest) = scanPairs ((d1, y1) :: rest) := by
  simp [scanPairs, h0, h]

/-- If no difference before the last aligned period is zero and no
adjacent pair changes sign, the scan reports no breakeven. -/
theorem scanPairs_none :
    ∀ l : Series, (∀ p ∈ l.dropLast, p.2 ≠ 0) →
      List.Chain' (fun p q => 0 ≤ p.2 * q.2) l → scanPairs l = none := by
  intro l
  induction l with
  | nil => intro _ _; rfl
  | cons p t ih =>
      cases t with
      | nil => intro _ _; rfl
      | cons q r =>
          intro hz hch
          obtain ⟨d0, y0⟩ := p
          obtain ⟨d1, y1⟩ := q
          have h0 : y0 ≠ 0 := hz (d0, y0) (by simp [List.dropLast])
          have hprod : 0 ≤ y0 * y1 := (List.chain'_cons.mp hch).1
          rw [scanPairs_skip d0 d1 y0 y1 r h0 (not_lt.mpr hprod)]
          exact ih (fun p hp => hz p (by simp [List.dropLast]; right; simpa using hp))
            (List.chain'_cons.mp hch).2

/-- A zero difference strictly before the last aligned period, preceded
by no zero and no sign change, is reported at its own month. -/
theorem scanPairs_first_zero :
    ∀ (l1 : Series) (d : ℤ) (q : ℤ × ℚ) (l2 : Series),
      (∀ p ∈ l1, p.2 ≠ 0) →
      List.Chain' (fun p q => 0 ≤ p.2 * q.2) (l1 ++ [(d, 0)]) →
      scanPairs (l1 ++ (d, 0) :: q :: l2) = some d := by
  intro l1
  induction l1 with
  | nil =>
      intro d q l2 _ _
      obtain ⟨d1, y1⟩ := q
      exact scanPairs_zero_head d d1 y1 l2
  | cons p t ih =>
      intro d q l2 hz hch
      obtain ⟨d0, y0⟩ := p
      have h0 : y0 ≠ 0 := hz (d0, y0) (by simp)
      simp only [List.cons_append] at hch ⊢
      cases t with
      | nil =>
          simp only [List.nil_append] at hch ⊢
          obtain ⟨d1, y1⟩ := q
          rw [scanPairs_skip d0 d y0 0 ((d1, y1) :: l2) h0 (by simp)]
          exact scanPairs_zero_head d d1 y1 l2
      | cons p2 t2 =>
          obtain ⟨d1, y1⟩ := p2
          simp only [List.cons_append] at hch ⊢
          have hprod : 0 ≤ y0 * y1 := (List.chain'_cons.mp hch).1
          rw [scanPairs_skip d0 d1 y0 y1 (t2 ++ (d, 0) :: q :: l2) h0
              (not_lt.mpr hprod)]
          exact ih d q l2 (fun p hp => hz p (by simp at hp ⊢; tauto))
            (List.chain'_cons.mp hch).2

/-- A sign change preceded by no zero and no sign change is reported at
the later month of its pair. -/
theorem scanPairs_first_sign :
    ∀ (l1 : Series) (d0 : ℤ) (y0 : ℚ) (d1 : ℤ) (y1 : ℚ) (l2 : Series),
      (∀ p ∈ l1 ++ [(d0, y0)], p.2 ≠ 0) →
      List.Chain' (fun p q => 0 ≤ p.2 * q.2) (l1 ++ [(d0, y0)]) →
      y0 * y1 < 0 →
      scanPairs (l1 ++ (d0, y0) :: (d1, y1) :: l2) = some d1 := by
  intro l1
  induction l1 with
  | nil =>
      intro d0 y0 d1 y1 l2 hz _ hs
      exact scanPairs_sign_head d0 d1 y0 y1 l2 (hz (d0, y0) (by simp)) hs
  | cons p t ih =>
      intro d0 y0 d1 y1 l2 hz hch hs
      obtain ⟨da, ya⟩ := p
      have h0 : ya ≠ 0 := hz (da, ya) (by simp)
      simp only [List.cons_append] at hch ⊢
      cases t with
      | nil =>
          simp only [List.nil_append] at hch ⊢
          have hprod : 0 ≤ ya * y0 := (List.chain'_cons.mp hch).1
          rw [scanPairs_skip da d0 ya y0 ((d1, y1) :: l2) h0 (not_lt.mpr hprod)]
          exact scanPairs_sign_head d0 d1 y0 y1 l2 (hz (d0, y0) (by simp)) hs
      | cons p2 t2 =>
          obtain ⟨db, yb⟩ := p2
          simp only [List.cons_append] at hch ⊢
          have hprod : 0 ≤ ya * yb := (List.chain'_cons.mp hch).1
          rw [scanPairs_skip da db ya yb (t2 ++ (d0, y0) :: (d1, y1) :: l2) h0
              (not_lt.mpr hprod)]
          exact ih d0 y0 d1 y1 l2 (fun p hp => hz p (by simp at hp ⊢; tauto))
            (List.chain'_cons.mp hch).2 hs

/-! ## The claims -/

/-- C1: in Amount mode, an active-phase step (age below retirement age)
produces `B' = (B + C) * (1 + pre_return)`; a runoff-phase step
(age at or past retirement age) produces `B' = B * (1 + post_return)`
with no contribution added; and the contribution grows by the COLA rate
only after being applied, so after `n` all-active steps (hence in period
`t = n + 1`) it equals the starting contribution times `(1 + cola) ^ n`. -/
theorem claim_C1 (g : Globals) (b : Bucket) (age : ℤ) (s : SimState) (n : ℕ)
    (hA : g.contrib_type = ContribType.Amount) :
    (age < g.retirement_age →
      (stepYear g b age s).balance =
        (s.balance + s.contrib) * (1 + g.pre_return)) ∧
    (g.retirement_age ≤ age →
      (stepYear g b age s).balance = s.balance * (1 + g.post_return) ∧
      (stepYear g b age s).contrib = s.contrib) ∧
    (age + n ≤ g.retirement_age →
      (simSeg g b age s n).contrib = s.contrib * (1 + g.cola) ^ n) := by
  refine ⟨?_, ?_, ?_⟩
  · intro ha
    simp [stepYear, if_pos ha, hA]
  · intro ha
    constructor <;> simp [stepYear, not_lt.mpr ha]
  · exact simSeg_contrib_amount g b hA n age s

/-- Witness for C1 at scenario 1 (Amount mode, two active periods). -/
theorem claim_C1_witness :
    scen1G.contrib_type = ContribType.Amount ∧
    (((0 : ℤ) < scen1G.retirement_age →
      (stepYear scen1G scen1B 0 (initState scen1G scen1B)).balance =
        ((initState scen1G scen1B).balance + (initState scen1G scen1B).contrib) *
          (1 + scen1G.pre_return)) ∧
    (scen1G.retirement_age ≤ (0 : ℤ) →
      (stepYear scen1G scen1B 0 (initState scen1G scen1B)).balance =
        (initState scen1G scen1B).balance * (1 + scen1G.post_return) ∧
      (stepYear scen1G scen1B 0 (initState scen1G scen1B)).contrib =
        (initState scen1G scen1B).contrib) ∧
    ((0 : ℤ) + (2 : ℕ) ≤ scen1G.retirement_age →
      (simSeg scen1G scen1B 0 (initState scen1G scen1B) 2).contrib =
        (initState scen1G scen1B).contrib * (1 + scen1G.cola) ^ 2)) :=
  ⟨rfl, claim_C1 scen1G scen1B 0 (initState scen1G scen1B) 2 rfl⟩

/-- C2: in Percent mode, an active-phase step uses
`contribution = salary * rate_fraction` and produces
`B' = (B + contribution) * (1 + pre_return)`; the salary base grows by
one COLA factor per active step (so by `(1 + cola) ^ n` over `n` active
steps), and its trajectory is shared: it depends only on the starting
salary, the COLA rate and the retirement age, never on the bucket (its
rate or balance) or on the return rates. -/
theorem claim_C2 (g g2 : Globals) (b b2 : Bucket) (age : ℤ) (s t : SimState)
    (n : ℕ) (hP : g.contrib_type = ContribType.Percent) :
    (age < g.retirement_age →
      (stepYear g b age s).balance =
        (s.balance + s.local_salary * b.starting_contribution) *
          (1 + g.pre_return) ∧
      (stepYear g b age s).local_salary = s.local_salary * (1 + g.cola)) ∧
    (age + n ≤ g.retirement_age →
      (simSeg g b age s n).local_salary =
        s.local_salary * (1 + g.cola) ^ n) ∧
    (g2.contrib_type = ContribType.Percent → g2.cola = g.cola →
      g2.retirement_age = g.retirement_age →
      t.local_salary = s.local_salary →
      (simSeg g2 b2 age t n).local_salary =
        (simSeg g b age s n).local_salary) := by
  refine ⟨?_, ?_, ?_⟩
  · intro ha
    constructor <;> simp [stepYear, if_pos ha, hP]
  · exact simSeg_salary_percent g b hP n age s
  · intro hP2 hc hr ht
    exact simSeg_salary_indep g g2 b b2 hP hP2 hc hr n age s t ht

/-- Witness for C2 at scenario 2, with a second run differing in both
return rates and in the bucket. -/
theorem claim_C2_witness :
    scen2G.contrib_type = ContribType.Percent ∧
    (((0 : ℤ) < scen2G.retirement_age →
      (stepYear scen2G scen2B 0 (initState scen2G scen2B)).balance =
        ((initState scen2G scen2B).balance +
          (initState scen2G scen2B).local_salary * scen2B.starting_contribution) *
          (1 + scen2G.pre_return) ∧
      (stepYear scen2G scen2B 0 (initState scen2G scen2B)).local_salary =
        (initState scen2G scen2B).local_salary * (1 + scen2G.cola)) ∧
    ((0 : ℤ) + (2 : ℕ) ≤ scen2G.retirement_age →
      (simSeg scen2G scen2B 0 (initState scen2G scen2B) 2).local_salary =
        (initState scen2G scen2B).local_salary * (1 + scen2G.cola) ^ 2) ∧
    ({ scen2G with pre_return := 0 }.contrib_type = ContribType.Percent →
      { scen2G with pre_return := 0 }.cola = scen2G.cola →
      { scen2G with pre_return := 0 }.retirement_age = scen2G.retirement_age →
      (initState scen2G scen1B).local_salary =
        (initState scen2G scen2B).local_salary →
      (simSeg { scen2G with pre_return := 0 } scen1B 0
          (initState scen2G scen1B) 2).local_salary =
        (simSeg scen2G scen2B 0 (initState scen2G scen2B) 2).local_salary)) :=
  ⟨rfl, claim_C2 scen2G { scen2G with pre_return := 0 } scen2B scen1B 0
    (initState scen2G scen2B) (initState scen2G scen1B) 2 rfl⟩

/-- C3: for every trace row `yr` in `[current_year, max payout year)` and
every bucket of the table, the recorded cell equals the rounded balance
of an independent re-simulation of `yr + 1 - current_year` steps from the
bucket's initial state (null from the bucket's payout year on), and
equally the value produced by a single incremental pass over the rows. -/
theorem claim_C3 (g : Globals) (bs : List Bucket) (b : Bucket) (yr : ℤ)
    (hb : b ∈ bs) (h1 : g.current_year ≤ yr) (h2 : yr < maxPayoutYear bs) :
    traceCell g b yr =
      (if yr < b.payout_year then
        some (round2 ((simSeg g b g.current_age (initState g b)
          ((yr + 1 - g.current_year).toNat)).balance))
      else none) ∧
    traceCell g b yr =
      (if yr < b.payout_year then
        some (round2 ((incPass g b ((yr + 1 - g.current_year).toNat)).balance))
      else none) := by
  have key : yr < b.payout_year →
      cellLoop g b yr g.current_year g.current_age (initState g b) =
        simSeg g b g.current_age (initState g b)
          ((yr + 1 - g.current_year).toNat) := fun hp =>
    cellLoop_eq_simSeg g b yr ((yr + 1 - g.current_year).toNat)
      g.current_year g.current_age (initState g b) (by omega)
  constructor
  · simp only [traceCell]
    by_cases hp : yr < b.payout_year
    · rw [if_pos hp, if_pos hp, key hp]
    · rw [if_neg hp, if_neg hp]
  · simp only [traceCell]
    by_cases hp : yr < b.payout_year
    · rw [if_pos hp, if_pos hp, key hp, incPass_eq_simSeg]
      have e : min ((yr + 1 - g.current_year).toNat)
          ((b.payout_year - g.current_year).toNat) =
          (yr + 1 - g.current_year).toNat := by omega
      rw [e]
    · rw [if_neg hp, if_neg hp]

/-- Witness for C3 at scenario 1, trace row 1. -/
theorem claim_C3_witness :
    (scen1B ∈ [scen1B] ∧ scen1G.current_year ≤ (1 : ℤ) ∧
      (1 : ℤ) < maxPayoutYear [scen1B]) ∧
    (traceCell scen1G scen1B 1 =
      (if (1 : ℤ) < scen1B.payout_year then
        some (round2 ((simSeg scen1G scen1B scen1G.current_age
          (initState scen1G scen1B)
          (((1 : ℤ) + 1 - scen1G.current_year).toNat)).balance))
      else none) ∧
    traceCell scen1G scen1B 1 =
      (if (1 : ℤ) < scen1B.payout_year then
        some (round2 ((incPass scen1G scen1B
          (((1 : ℤ) + 1 - scen1G.current_year).toNat)).balance))
      else none)) :=
  ⟨⟨by simp, by decide, by decide⟩,
    claim_C3 scen1G [scen1B] scen1B 1 (by simp) (by decide) (by decide)⟩

/-- C5: for a bucket whose payout year exceeds the start year, the final
payout equals the rounded balance of the Step Simulator continued from
the start state to the bucket's own payout year (a step count that does
not mention the trace horizon); the trace row `payout_year - 1` exists in
`[current_year, max payout year)`, records exactly the payout amount, and
every row from the payout year on records null. -/
theorem claim_C5 (g : Globals) (bs : List Bucket) (b : Bucket)
    (hb : b ∈ bs) (hp : g.current_year < b.payout_year) :
    payoutAmount g b =
      round2 ((simSeg g b g.current_age (initState g b)
        ((b.payout_year - g.current_year).toNat)).balance) ∧
    (g.current_year ≤ b.payout_year - 1 ∧
      b.payout_year - 1 < maxPayoutYear bs) ∧
    traceCell g b (b.payout_year - 1) = some (payoutAmount g b) ∧
    (∀ yr : ℤ, b.payout_year ≤ yr → traceCell g b yr = none) := by
  have hmax := payout_le_maxPayoutYear bs b hb
  have e1 : payoutLoop g b g.current_year g.current_age (initState g b) =
      simSeg g b g.current_age (initState g b)
        ((b.payout_year - g.current_year).toNat) :=
    payoutLoop_eq_simSeg g b ((b.payout_year - g.current_year).toNat)
      g.current_year g.current_age (initState g b) rfl
  refine ⟨by rw [payoutAmount, e1], ⟨by omega, by omega⟩, ?_, ?_⟩
  · simp only [traceCell]
    rw [if_pos (by omega)]
    rw [cellLoop_eq_simSeg g b (b.payout_year - 1)
      ((b.payout_year - g.current_year).toNat) g.current_year g.current_age
      (initState g b) (by omega)]
    rw [payoutAmount, e1]
  · intro yr h
    simp only [traceCell]
    rw [if_neg (by omega)]

/-- Witness for C5 at scenario 1. -/
theorem claim_C5_witness :
    (scen1B ∈ [scen1B] ∧ scen1G.current_year < scen1B.payout_year) ∧
    (payoutAmount scen1G scen1B =
      round2 ((simSeg scen1G scen1B scen1G.current_age
        (initState scen1G scen1B)
        ((scen1B.payout_year - scen1G.current_year).toNat)).balance) ∧
    (scen1G.current_year ≤ scen1B.payout_year - 1 ∧
      scen1B.payout_year - 1 < maxPayoutYear [scen1B]) ∧
    traceCell scen1G scen1B (scen1B.payout_year - 1) =
      some (payoutAmount scen1G scen1B) ∧
    (∀ yr : ℤ, scen1B.payout_year ≤ yr →
      traceCell scen1G scen1B yr = none)) :=
  ⟨⟨by simp, by decide⟩, claim_C5 scen1G [scen1B] scen1B (by simp) (by decide)⟩

/-- C4 (counterexample): on series whose aligned difference is zero only
at the *last* aligned period — here differences `[-1, 0]` at periods
`[0, 1]` — the claim as stated reports breakeven at that period, but
`find_breakeven_month` never examines the final difference as a zero and
returns the no-breakeven sentinel. -/
theorem claim_C4_counterexample :
    alignedDiff [((0 : ℤ), (1 : ℚ)), (1, 5)] [((0 : ℤ), (2 : ℚ)), (1, 5)] =
      [(0, -1), (1, 0)] ∧
    find_breakeven_month [((0 : ℤ), (1 : ℚ)), (1, 5)]
      [((0 : ℤ), (2 : ℚ)), (1, 5)] = none ∧
    find_breakeven_month [((0 : ℤ), (1 : ℚ)), (1, 5)]
      [((0 : ℤ), (2 : ℚ)), (1, 5)] ≠ some 1 := by
  have h1 : alignedDiff [((0 : ℤ), (1 : ℚ)), (1, 5)]
      [((0 : ℤ), (2 : ℚ)), (1, 5)] = [(0, -1), (1, 0)] := by
    norm_num [alignedDiff, align_series, alignLoop, mergedMonths,
      insertSorted, dictGet, List.dedup, List.pwFilter, List.filter]
  have h2 : find_breakeven_month [((0 : ℤ), (1 : ℚ)), (1, 5)]
      [((0 : ℤ), (2 : ℚ)), (1, 5)] = none := by
    simp only [find_breakeven_month]
    rw [if_neg (by simp), h1]
    norm_num [scanPairs]
  exact ⟨h1, h2, by rw [h2]; simp⟩

/-- C4 (amended): `find_breakeven_month` aligns the two series on the
merged sorted period grid with forward fill from 0, and scanning in
period order reports: a period with difference exactly zero, immediately,
at that period, *provided some later aligned period exists* (a zero at
the final aligned period is never examined); otherwise, on the first
adjacent sign change, the later period of the pair; and the no-breakeven
sentinel when no such event is found before the end of the range. -/
theorem claim_C4_amended (sa sb : Series) (hsa : sa ≠ []) (hsb : sb ≠ []) :
    ((∀ p ∈ (alignedDiff sa sb).dropLast, p.2 ≠ 0) →
      List.Chain' (fun p q => 0 ≤ p.2 * q.2) (alignedDiff sa sb) →
      find_breakeven_month sa sb = none) ∧
    (∀ (l1 : Series) (d : ℤ) (q : ℤ × ℚ) (l2 : Series),
      alignedDiff sa sb = l1 ++ (d, 0) :: q :: l2 →
      (∀ p ∈ l1, p.2 ≠ 0) →
      List.Chain' (fun p q => 0 ≤ p.2 * q.2) (l1 ++ [(d, 0)]) →
      find_breakeven_month sa sb = some d) ∧
    (∀ (l1 : Series) (d0 : ℤ) (y0 : ℚ) (d1 : ℤ) (y1 : ℚ) (l2 : Series),
      alignedDiff sa sb = l1 ++ (d0, y0) :: (d1, y1) :: l2 →
      (∀ p ∈ l1 ++ [(d0, y0)], p.2 ≠ 0) →
      List.Chain' (fun p q => 0 ≤ p.2 * q.2) (l1 ++ [(d0, y0)]) →
      y0 * y1 < 0 →
      find_breakeven_month sa sb = some d1) := by
  have hguard : find_breakeven_month sa sb = scanPairs (alignedDiff sa sb) := by
    simp only [find_breakeven_month]
    rw [if_neg (by simp [hsa, hsb])]
  refine ⟨?_, ?_, ?_⟩
  · intro hz hch
    rw [hguard]
    exact scanPairs_none _ hz hch
  · intro l1 d q l2 he hz hch
    rw [hguard, he]
    exact scanPairs_first_zero l1 d q l2 hz hch
  · intro l1 d0 y0 d1 y1 l2 he hz hch hs
    rw [hguard, he]
    exact scanPairs_first_sign l1 d0 y0 d1 y1 l2 hz hch hs

/-- Witness for C4 at spec scenario 3: differences `[-50, -20, 20, -20]`,
first sign change between periods 1 and 2, breakeven reported at 2. -/
theorem claim_C4_witness :
    (scen3A ≠ [] ∧ scen3B ≠ []) ∧
    alignedDiff scen3A scen3B =
      [((0 : ℤ), (-50 : ℚ))] ++ (1, (-20 : ℚ)) :: (2, (20 : ℚ)) :: [(3, -20)] ∧
    (∀ p ∈ [((0 : ℤ), (-50 : ℚ))] ++ [((1 : ℤ), (-20 : ℚ))], p.2 ≠ 0) ∧
    List.Chain' (fun p q => 0 ≤ p.2 * q.2)
      ([((0 : ℤ), (-50 : ℚ))] ++ [((1 : ℤ), (-20 : ℚ))]) ∧
    ((-20 : ℚ) * 20 < 0) ∧
    find_breakeven_month scen3A scen3B = some 2 := by
  have hd : alignedDiff scen3A scen3B =
      [((0 : ℤ), (-50 : ℚ))] ++ (1, (-20 : ℚ)) :: (2, (20 : ℚ)) :: [(3, -20)] := by
    norm_num [alignedDiff, align_series, alignLoop, mergedMonths,
      insertSorted, dictGet, scen3A, scen3B, List.dedup, List.pwFilter,
      List.filter]
  have hz : ∀ p ∈ [((0 : ℤ), (-50 : ℚ))] ++ [((1 : ℤ), (-20 : ℚ))], p.2 ≠ 0 := by
    norm_num
  have hch : List.Chain' (fun p q => 0 ≤ p.2 * q.2)
      ([((0 : ℤ), (-50 : ℚ))] ++ [((1 : ℤ), (-20 : ℚ))]) := by
    norm_num [List.chain'_cons, List.chain'_singleton]
  have hs : (-20 : ℚ) * 20 < 0 := by norm_num
  exact ⟨⟨by simp [scen3A], by simp [scen3B]⟩, hd, hz, hch, hs,
    (claim_C4_amended scen3A scen3B (by simp [scen3A]) (by simp [scen3B])).2.2
      [((0 : ℤ), (-50 : ℚ))] 1 (-20) 2 20 [(3, -20)] hd hz hch hs⟩

/-- C6 (code evaluation at the failing input): a person born 1975-06-15
with 4 years of service, run in 2026 — the Rule-of-55 test fails at the
fixed reference date (age 50 + service 4 = 54 < 55), yet the forecast row
for the simulated year 2027 carries the extra service-credit rate 0.04
and nonzero service credits, because `forecast_contributions` passes the
*evolving* years-of-service into `apply_rule_of_55` instead of its value
at the reference date. -/
theorem claim_C6_bug :
    yearsBetween ⟨1975, 6, 15⟩ ⟨2025, 12, 31⟩ + 4 < 55 ∧
    ((okRows (forecast_contributions ⟨1975, 6, 15⟩ 4 100000 0 0 52 none
      ⟨2026, 10, 1⟩))[1]?).map FRow.year = some 2027 ∧
    ((okRows (forecast_contributions ⟨1975, 6, 15⟩ 4 100000 0 0 52 none
      ⟨2026, 10, 1⟩))[1]?).map FRow.service_rate = some (4 / 100) ∧
    ((okRows (forecast_contributions ⟨1975, 6, 15⟩ 4 100000 0 0 52 none
      ⟨2026, 10, 1⟩))[1]?).map FRow.annual_service = some 4000 := by
  refine ⟨by norm_num [yearsBetween], ?_, ?_, ?_⟩ <;>
    norm_num [forecast_contributions, validate_hire_date, yearsBetween,
      forecastRows, calculate_contribution_rate, apply_rule_of_55, okRows]

/-- C7 (counterexample): the spec's worked values for period 2 are not
what the Step Simulator computes: scenario 1 gives
`(37450 + 5150) * 1.07 = 45582.00`, not `45631.50`, and scenario 2 gives
`(5350 + 5150) * 1.07 = 11235.00`, not `11234.50`. -/
theorem claim_C7_counterexample :
    (simSeg scen1G scen1B 0 (initState scen1G scen1B) 2).balance = 45582 ∧
    (simSeg scen1G scen1B 0 (initState scen1G scen1B) 2).balance ≠
      91263 / 2 ∧
    (simSeg scen2G scen2B 0 (initState scen2G scen2B) 2).balance = 11235 ∧
    (simSeg scen2G scen2B 0 (initState scen2G scen2B) 2).balance ≠
      22469 / 2 := by
  refine ⟨?_, ?_, ?_, ?_⟩ <;>
    norm_num [simSeg, stepYear, initState, scen1G, scen1B, scen2G, scen2B]

/-- C7 (amended): the Step Simulator on the spec's scenarios yields
37450.00 after period 1, 45582.00 after period 2 and 47861.10 after the
runoff period 3 in scenario 1 (already exact at two decimals), and
5350.00 after period 1 (salary grown to 103000) and 11235.00 after
period 2 in scenario 2. -/
theorem claim_C7_amended :
    (simSeg scen1G scen1B 0 (initState scen1G scen1B) 1).balance = 37450 ∧
    (simSeg scen1G scen1B 0 (initState scen1G scen1B) 2).balance = 45582 ∧
    (simSeg scen1G scen1B 0 (initState scen1G scen1B) 3).balance =
      478611 / 10 ∧
    round2 (simSeg scen1G scen1B 0 (initState scen1G scen1B) 3).balance =
      478611 / 10 ∧
    (simSeg scen2G scen2B 0 (initState scen2G scen2B) 1).balance = 5350 ∧
    (simSeg scen2G scen2B 0 (initState scen2G scen2B) 1).local_salary =
      103000 ∧
    (simSeg scen2G scen2B 0 (initState scen2G scen2B) 2).balance = 11235 := by
  refine ⟨?_, ?_, ?_, ?_, ?_, ?_, ?_⟩ <;>
    norm_num [simSeg, stepYear, initState, scen1G, scen1B, scen2G, scen2B,
      round2, round_eq]

/-- C8 (counterexample): at balance 0 a runoff step with the nonzero rate
1/20 returns the balance unchanged, so `B' = B` does not imply `r = 0`;
the claimed equivalence fails at `B = 0`. -/
theorem claim_C8_counterexample :
    (0 : ℚ) ≤ (⟨0, 0, 0⟩ : SimState).balance ∧
    (0 : ℚ) ≤ scen1G.post_return ∧
    scen1G.retirement_age ≤ 5 ∧
    (stepYear scen1G scen1B 5 ⟨0, 0, 0⟩).balance =
      (⟨0, 0, 0⟩ : SimState).balance ∧
    scen1G.post_return ≠ 0 := by
  refine ⟨le_refl 0, ?_, ?_, ?_, ?_⟩ <;> norm_num [stepYear, scen1G, scen1B]

/-- C8 (amended): with nonnegative balance, contribution and rates, an
active-phase step never decreases the balance, a runoff-phase step never
decreases the balance, a zero rate is a no-op growth step, and — for a
*positive* balance — a runoff step fixes the balance exactly when the
rate is zero (at balance 0 any rate is a fixpoint). -/
theorem claim_C8_amended (g : Globals) (b : Bucket) (age : ℤ) (s : SimState)
    (hB : 0 ≤ s.balance) (hC : 0 ≤ contribOf g b s)
    (hpre : 0 ≤ g.pre_return) (hpost : 0 ≤ g.post_return) :
    (age < g.retirement_age → s.balance ≤ (stepYear g b age s).balance) ∧
    (g.retirement_age ≤ age →
      s.balance ≤ (stepYear g b age s).balance ∧
      (g.post_return = 0 → (stepYear g b age s).balance = s.balance) ∧
      (0 < s.balance →
        ((stepYear g b age s).balance = s.balance ↔ g.post_return = 0))) := by
  constructor
  · intro ha
    have hcv : (stepYear g b age s).balance =
        (s.balance + contribOf g b s) * (1 + g.pre_return) := by
      cases hm : g.contrib_type <;> simp [stepYear, if_pos ha, contribOf, hm]
    rw [hcv]
    nlinarith [mul_nonneg hB hpre, mul_nonneg hC hpre]
  · intro ha
    have hcv : (stepYear g b age s).balance =
        s.balance * (1 + g.post_return) := by
      simp [stepYear, not_lt.mpr ha]
    refine ⟨?_, ?_, ?_⟩
    · rw [hcv]
      nlinarith [mul_nonneg hB hpost]
    · intro h0
      rw [hcv, h0]
      ring
    · intro hpos
      rw [hcv]
      constructor
      · intro he
        have h2 : s.balance * g.post_return = 0 := by linear_combination he
        rcases mul_eq_zero.mp h2 with h3 | h3
        · exact absurd h3 (ne_of_gt hpos)
        · exact h3
      · intro h0
        rw [h0]
        ring

/-- Witness for C8 at scenario 1, active phase at age 0. -/
theorem claim_C8_witness :
    ((0 : ℚ) ≤ (initState scen1G scen1B).balance ∧
      (0 : ℚ) ≤ contribOf scen1G scen1B (initState scen1G scen1B) ∧
      (0 : ℚ) ≤ scen1G.pre_return ∧ (0 : ℚ) ≤ scen1G.post_return) ∧
    (((0 : ℤ) < scen1G.retirement_age →
      (initState scen1G scen1B).balance ≤
        (stepYear scen1G scen1B 0 (initState scen1G scen1B)).balance) ∧
    (scen1G.retirement_age ≤ (0 : ℤ) →
      (initState scen1G scen1B).balance ≤
        (stepYear scen1G scen1B 0 (initState scen1G scen1B)).balance ∧
      (scen1G.post_return = 0 →
        (stepYear scen1G scen1B 0 (initState scen1G scen1B)).balance =
          (initState scen1G scen1B).balance) ∧
      (0 < (initState scen1G scen1B).balance →
        ((stepYear scen1G scen1B 0 (initState scen1G scen1B)).balance =
            (initState scen1G scen1B).balance ↔
          scen1G.post_return = 0)))) :=
  ⟨⟨by norm_num [initState, scen1B],
    by norm_num [contribOf, scen1G, initState, scen1B],
    by norm_num [scen1G], by norm_num [scen1G]⟩,
    claim_C8_amended scen1G scen1B 0 (initState scen1G scen1B)
      (by norm_num [initState, scen1B])
      (by norm_num [contribOf, scen1G, initState, scen1B])
      (by norm_num [scen1G]) (by norm_num [scen1G])⟩

/-- C9: the bucket-table validation rejects — with an error outcome, so
no simulation output is produced — whenever some row has a non-numeric
cell, a negative starting balance or contribution, or a non-positive
payout year; and the retirement-accumulation run handler rejects when
both a hire date and an explicit years-of-service are supplied. -/
theorem claim_C9 (g : Globals) (rows : List RawBucket)
    (hbad : ∃ r ∈ rows, rowNonNumeric r = true ∨ rowBadValues r = true) :
    (∃ msg, essp_main g rows = RunOutcome.error msg) ∧
    (∀ (hire today dob : DateT) (yos target_age : ℤ) (pay ror pg : ℚ),
      run_forecast_handler (some hire) (some yos) dob pay ror pg target_age
        today =
        RunOutcome.error
          "Please provide either a Hire Date or Years of Service, not both.") := by
  constructor
  · obtain ⟨r, hr, hcase⟩ := hbad
    by_cases hA : rows.filter (fun r => rowNonNumeric r) = []
    · have hbv : rowBadValues r = true := by
        rcases hcase with h | h
        · exfalso
          have hmem : r ∈ rows.filter (fun r => rowNonNumeric r) :=
            List.mem_filter.mpr ⟨hr, h⟩
          rw [hA] at hmem
          cases hmem
        · exact h
      have hBne : rows.filter (fun r => rowBadValues r) ≠ [] :=
        List.ne_nil_of_mem (List.mem_filter.mpr ⟨hr, hbv⟩)
      refine ⟨"One or more rows have invalid values", ?_⟩
      simp only [essp_main]
      rw [if_neg (by simp [hA]), if_pos hBne]
    · refine ⟨"Some rows have invalid numeric values", ?_⟩
      simp only [essp_main]
      rw [if_pos hA]
  · intro hire today dob yos ta pay ror pg
    simp [run_forecast_handler]

/-- Witness for C9: a row with a negative starting balance. -/
theorem claim_C9_witness :
    (∃ r ∈ [badRow], rowNonNumeric r = true ∨ rowBadValues r = true) ∧
    ((∃ msg, essp_main scen1G [badRow] = RunOutcome.error msg) ∧
    (∀ (hire today dob : DateT) (yos target_age : ℤ) (pay ror pg : ℚ),
      run_forecast_handler (some hire) (some yos) dob pay ror pg target_age
        today =
        RunOutcome.error
          "Please provide either a Hire Date or Years of Service, not both.")) :=
  ⟨⟨badRow, by simp, Or.inr (by norm_num [rowBadValues, badRow])⟩,
    claim_C9 scen1G [badRow]
      ⟨badRow, by simp, Or.inr (by norm_num [rowBadValues, badRow])⟩⟩

/-- C10 (counterexample): with starting balance 10.004, return rate
0.0004 and tax rate 0, the year-1 reported row rounds to
Start 10.00, Net 0.00, End 10.01 — the reported columns do not satisfy
End Balance = Start Balance + Net Gain. -/
theorem claim_C10_counterexample :
    (lumpRow (2501 / 250) 0 (1 / 2500) 0 1).start_bal = 10 ∧
    (lumpRow (2501 / 250) 0 (1 / 2500) 0 1).net = 0 ∧
    (lumpRow (2501 / 250) 0 (1 / 2500) 0 1).end_bal = 1001 / 100 ∧
    (lumpRow (2501 / 250) 0 (1 / 2500) 0 1).end_bal ≠
      (lumpRow (2501 / 250) 0 (1 / 2500) 0 1).start_bal +
        (lumpRow (2501 / 250) 0 (1 / 2500) 0 1).net := by
  refine ⟨?_, ?_, ?_, ?_⟩ <;>
    norm_num [lumpRow, lumpPre, lumpEnd, round2, round_eq]

/-- C10 (amended): the first simulated year never subtracts the annual
payment, every year `y ≥ 2` subtracts it before growth, the net gain is
`balance * return_rate * (1 - tax_rate)`, and End = Start + Net holds
exactly for the unrounded balances (the reported row rounds that exact
sum; the independently rounded Start and Net columns may differ from the
rounded End by a cent, per the counterexample). -/
theorem claim_C10_amended (start annual r t : ℚ) (y : ℕ) (hy : 1 ≤ y) :
    lumpPre start annual r t 1 = start ∧
    (2 ≤ y → lumpPre start annual r t y =
      lumpEnd start annual r t (y - 1) - annual) ∧
    lumpNet start annual r t y = lumpPre start annual r t y * r * (1 - t) ∧
    lumpEnd start annual r t y =
      lumpPre start annual r t y + lumpNet start annual r t y ∧
    (lumpRow start annual r t y).end_bal =
      round2 (lumpPre start annual r t y + lumpNet start annual r t y) := by
  refine ⟨?_, ?_, ?_, ?_, ?_⟩
  · simp [lumpPre, lumpEnd]
  · intro h2
    rw [lumpPre, if_pos (by omega : y > 1)]
  · simp only [lumpNet]
    ring
  · obtain ⟨n, rfl⟩ : ∃ n, y = n + 1 := ⟨y - 1, by omega⟩
    simp only [lumpEnd, lumpPre, lumpNet, Nat.add_sub_cancel]
  · simp only [lumpRow, lumpNet]

/-- Witness for C10 at year 2 with concrete inputs. -/
theorem claim_C10_witness :
    (1 : ℕ) ≤ 2 ∧
    (lumpPre 100 10 (1 / 10) 0 1 = 100 ∧
    (2 ≤ 2 → lumpPre 100 10 (1 / 10) 0 2 =
      lumpEnd 100 10 (1 / 10) 0 (2 - 1) - 10) ∧
    lumpNet 100 10 (1 / 10) 0 2 =
      lumpPre 100 10 (1 / 10) 0 2 * (1 / 10) * (1 - 0) ∧
    lumpEnd 100 10 (1 / 10) 0 2 =
      lumpPre 100 10 (1 / 10) 0 2 + lumpNet 100 10 (1 / 10) 0 2 ∧
    (lumpRow 100 10 (1 / 10) 0 2).end_bal =
      round2 (lumpPre 100 10 (1 / 10) 0 2 + lumpNet 100 10 (1 / 10) 0 2)) :=
  ⟨by norm_num, claim_C10_amended 100 10 (1 / 10) 0 2 (by norm_num)⟩

end FinCalc

